import Mathlib

/-!
Verification of the peel-and-fall simulation core of `SceneCanvas.tsx`
(banana_start repository).

The TypeScript source is shallowly embedded:
* float arithmetic on simulation state is modelled by exact rationals `ℚ`
  (the state-machine claims depend only on comparisons and field updates);
* the per-vertex shader deformation, which uses `sin`/`cos`, is modelled
  over the reals `ℝ`;
* the per-frame `animate` physics block for the falling wrapped object is
  an explicit state-transition function, with the externally observable
  effects (the `onTransition` callback and the thud cue) returned as event
  flags.

Numeric literals from the source are kept exact: `9.8 = 49/5`,
`-0.45 = -(9/20)`, `-0.5 = -(1/2)`, `0.4 = 2/5`, `0.05 = 1/20`,
`0.3 = 3/10`, `0.95 = 19/20`, `1.05 = 21/20`, `3.5 = 7/2`, `4.5 = 9/2`.
-/

namespace BananaStart

/-- The three local axes `x | y | z` of `SceneCanvas.tsx` (`type Axis`). -/
inductive Axis : Type
  | x
  | y
  | z
  deriving DecidableEq, Repr

/-- Axis priority used for tie-breaking statements: the original order
`x, y, z` of the `dims` array built in `setupTapePeel`. -/
def axisPrio : Axis → Nat
  | Axis.x => 0
  | Axis.y => 1
  | Axis.z => 2

/-- Extent lookup: the bounding-box size component of a given axis
(`bSize.x`, `bSize.y`, `bSize.z` in `setupTapePeel`). -/
def axisExtent (ex ey ez : ℚ) : Axis → ℚ
  | Axis.x => ex
  | Axis.y => ey
  | Axis.z => ez

/-- Lines 289-297 of `setupTapePeel`: build
`dims = [{x,ex},{y,ey},{z,ez}].sort((a,b) => b.len - a.len)` and read off
`lengthAxis = dims[0]`, `widthAxis = dims[1]`, `flatAxis = dims[2]`.
JavaScript `Array.prototype.sort` is a stable sort; with the comparator
`(a,b) => b.len - a.len` element `a` precedes `b` exactly when
`b.len ≤ a.len` (descending, ties keeping source order), which is the
behaviour of `List.insertionSort` with that relation. -/
def classifyAxes (ex ey ez : ℚ) : Axis × Axis × Axis :=
  let dims := List.insertionSort (fun a b : Axis × ℚ => b.2 ≤ a.2)
    [(Axis.x, ex), (Axis.y, ey), (Axis.z, ez)]
  match dims with
  | a :: b :: c :: _ => (a.1, b.1, c.1)
  | _ => (Axis.x, Axis.y, Axis.z)

/-- Per-axis bounding boxes needed by `onMove`'s direction lock:
`tapeBB` and `bananaBBInTape`, read componentwise by `getAxis`. -/
structure TapeConfig : Type where
  tapeMin : Axis → ℚ
  tapeMax : Axis → ℚ
  banMin : Axis → ℚ
  banMax : Axis → ℚ

/-- The interaction state of `SceneCanvas.tsx` relevant to the drag
session: the module-level mutable variables `isTorn`, `isDragging`,
`isDeterminingDir`, `peelConfigured`, `targetPeelProgress`,
`currentPeelProgress`, `curPeelAxis`, `curPeelSign`, the shader uniforms
`uPeelEdge`/`uMaxDist`, `bananaFallThreshold`, and `dragStartLocalHit`. -/
structure SimState : Type where
  isTorn : Bool
  isDragging : Bool
  isDeterminingDir : Bool
  peelConfigured : Bool
  targetProgress : ℚ
  currentProgress : ℚ
  curAxis : Option Axis
  curSign : Int
  uPeelEdge : ℚ
  uMaxDist : ℚ
  fallThreshold : ℚ
  dragStartLocalHit : Option (ℚ × ℚ × ℚ)

/-- Line 533 of `onMove`: the peel sign determined from the start hit,
`Math.abs(hitVal - minVal) < Math.abs(maxVal - hitVal) ? 1 : -1`. -/
def lockSign (cfg : TapeConfig) (ax : Axis) (hitVal : ℚ) : Int :=
  if |hitVal - cfg.tapeMin ax| < |cfg.tapeMax ax - hitVal| then 1 else -1

/-- Lines 551-556 of `onMove`: the fall-trigger threshold
computed at direction lock: raw projected extent over span
(branching on `sign === 1`), plus `0.05`, clamped by
`Math.min(Math.max(·, 0.3), 0.95)`.  Exact rational arithmetic: a zero
span here follows Lean's total-division convention `q / 0 = 0`; the
faithful JavaScript float semantics of that unguarded division (signed
infinities and `NaN`) is modelled separately by `fallThresholdJs`, and
the two agree whenever the span is nonzero. -/
def fallThresholdCalc (cfg : TapeConfig) (ax : Axis) (sign : Int) : ℚ :=
  let span := cfg.tapeMax ax - cfg.tapeMin ax
  let raw :=
    if sign = 1 then (cfg.banMax ax - cfg.tapeMin ax) / span
    else (cfg.tapeMax ax - cfg.banMin ax) / span
  min (max (raw + 1/20) (3/10)) (19/20)

/-- JavaScript number values reachable by the threshold computation:
a finite value, the two infinities produced by dividing a nonzero
numerator by zero, and the `NaN` produced by `0/0`. -/
inductive JsNum : Type
  | nan : JsNum
  | posInf : JsNum
  | negInf : JsNum
  | fin : ℚ → JsNum
  deriving DecidableEq, Repr

/-- JS addition of a finite constant: `NaN` and the infinities absorb. -/
def JsNum.add (x : JsNum) (c : ℚ) : JsNum :=
  match x with
  | nan => nan
  | posInf => posInf
  | negInf => negInf
  | fin a => fin (a + c)

/-- `Math.max(x, c)` for a finite `c`: `NaN` propagates, `Infinity`
dominates, `-Infinity` is replaced by `c`. -/
def JsNum.maxQ (x : JsNum) (c : ℚ) : JsNum :=
  match x with
  | nan => nan
  | posInf => posInf
  | negInf => fin c
  | fin a => fin (max a c)

/-- `Math.min(x, c)` for a finite `c`: `NaN` propagates, `-Infinity`
dominates, `Infinity` is replaced by `c`. -/
def JsNum.minQ (x : JsNum) (c : ℚ) : JsNum :=
  match x with
  | nan => nan
  | posInf => fin c
  | negInf => negInf
  | fin a => fin (min a c)

/-- JS division of finite values: a zero denominator yields `NaN` when
the numerator is also zero (`0/0`), and a signed infinity otherwise. -/
def jsDiv (a b : ℚ) : JsNum :=
  if b = 0 then
    if a = 0 then JsNum.nan
    else if 0 < a then JsNum.posInf else JsNum.negInf
  else JsNum.fin (a / b)

/-- Lines 551-556 of `onMove` under JavaScript float semantics: the same
computation as `fallThresholdCalc`, but with the division, the `+ 0.05`
and the `Math.min`/`Math.max` clamp evaluated over `JsNum`, so that the
unguarded zero-span division is modelled faithfully (`±Infinity` for a
nonzero numerator, `NaN` for `0/0`, both propagating through the clamp). -/
def fallThresholdJs (cfg : TapeConfig) (ax : Axis) (sign : Int) : JsNum :=
  let span := cfg.tapeMax ax - cfg.tapeMin ax
  let num :=
    if sign = 1 then cfg.banMax ax - cfg.tapeMin ax
    else cfg.tapeMax ax - cfg.banMin ax
  (((jsDiv num span).add (1/20)).maxQ (3/10)).minQ (19/20)

/-- Lines 530-565 of `onMove` (the direction-determination branch past the
jitter threshold, after `chosenAxis` has been selected): compute `sign`,
`edge`, `span`; if the `(axis, sign)` pair differs from the locked one,
reset both progress values to `0`, re-lock, update the `uPeelEdge` and
`uMaxDist` uniforms and recompute `bananaFallThreshold`; then in either
case mark the session configured and leave direction determination. -/
def determineLock (cfg : TapeConfig) (st : SimState) (chosenAxis : Axis)
    (hitVal : ℚ) : SimState :=
  let minVal := cfg.tapeMin chosenAxis
  let maxVal := cfg.tapeMax chosenAxis
  let sign := lockSign cfg chosenAxis hitVal
  let edge := if sign = 1 then minVal else maxVal
  let span := maxVal - minVal
  let sameDir := st.curAxis = some chosenAxis ∧ st.curSign = sign
  let st1 :=
    if sameDir then st
    else
      { st with
        targetProgress := 0
        currentProgress := 0
        curAxis := some chosenAxis
        curSign := sign
        uPeelEdge := edge * (sign : ℚ)
        uMaxDist := span
        fallThreshold := fallThresholdCalc cfg chosenAxis sign }
  { st1 with peelConfigured := true, isDeterminingDir := false }

/-- Lines 458-492 of `onDown`, given the result of the raycast against the
proxy (`tapeHitTarget`) as an optional local hit point: return early when
torn or on a miss; otherwise start dragging and either resume peeling
directly (`currentPeelProgress > 0.05`) or enter direction determination,
recording the start hit. -/
def onDown (st : SimState) (hit : Option (ℚ × ℚ × ℚ)) : SimState :=
  if st.isTorn then st
  else
    match hit with
    | none => st
    | some p =>
      if st.currentProgress > 1/20 then
        { st with
          isDragging := true
          isDeterminingDir := false
          peelConfigured := true }
      else
        { st with
          isDragging := true
          isDeterminingDir := true
          peelConfigured := false
          dragStartLocalHit := some p }

/-- Lines 570-584 of `onMove` (the peeling branch): normalize the screen
delta by the viewport size, take its Euclidean length, add
`dist * sensitivity` to the previous target progress, and clamp with
`Math.max(0, Math.min(1.05, ·))`. -/
noncomputable def onMoveTarget (prev screenDx screenDy w h sens : ℝ) : ℝ :=
  let dx := screenDx / w
  let dy := screenDy / h
  let dist := Real.sqrt (dx * dx + dy * dy)
  max 0 (min (21/20) (prev + dist * sens))

/-- Line 582 of `onMove`: `sensitivity = container.clientWidth < 768 ? 4.5 : 3.5`. -/
def sensitivityFor (clientWidth : ℚ) : ℚ :=
  if clientWidth < 768 then 9/2 else 7/2

/-- Shader displacement component along `uPeelNormal`
(`_dN = _s - uCurlR * sin(_a)` with `_a = _s / uCurlR`, lines 391-392). -/
noncomputable def curlDN (R s : ℝ) : ℝ := s - R * Real.sin (s / R)

/-- Shader displacement component along `uFlatDir`
(`_dF = uCurlR * (1.0 - cos(_a))` with `_a = _s / uCurlR`, lines 391-393). -/
noncomputable def curlDF (R s : ℝ) : ℝ := R * (1 - Real.cos (s / R))

/-- The `begin_vertex` patch of `patchShader` (lines 382-398): from the
vertex's component `pN` along `uPeelNormal`, form
`d = pN - uPeelEdge`, `peelLine = uPeel * uMaxDist`, `s = peelLine - d`;
if `s > 0 ∧ uMaxDist > 0` the added displacement is `(_dN, _dF)` in the
`(uPeelNormal, uFlatDir)` components, otherwise nothing is added. -/
noncomputable def vertexDisp (R maxDist peel edge pN : ℝ) : ℝ × ℝ :=
  let d := pN - edge
  let peelLine := peel * maxDist
  let s := peelLine - d
  if 0 < s ∧ 0 < maxDist then (curlDN R s, curlDF R s) else (0, 0)

/-- The `beginnormal_vertex` patch of `patchShader` (lines 358-380):
the object normal's components `(nP, nF, nK)` along
`(uPeelNormal, uFlatDir, uPeelNormal × uFlatDir)` are rotated by the
angle `a = s / R` about the tangent axis when `s > 0 ∧ uMaxDist > 0`,
and left untouched otherwise. -/
noncomputable def vertexNormalRot (R maxDist peel edge pN nP nF nK : ℝ) :
    ℝ × ℝ × ℝ :=
  let d := pN - edge
  let peelLine := peel * maxDist
  let s := peelLine - d
  if 0 < s ∧ 0 < maxDist then
    let a := s / R
    (nP * Real.cos a + nF * Real.sin a, -nP * Real.sin a + nF * Real.cos a, nK)
  else (nP, nF, nK)

/-- The wrapped-object ("banana") physics state of `animate`
(lines 663-685): `bananaFalling`, `fallVel`, `bananaGroup.position.y`,
`bananaGroup.rotation.x`, `bananaRotVelX`, `settled`, `transitionFired`. -/
structure BananaState : Type where
  falling : Bool
  vel : ℚ
  posY : ℚ
  rotX : ℚ
  rotVelX : ℚ
  settled : Bool
  transitionFired : Bool
  deriving DecidableEq, Repr

/-- Externally observable effects of one `animate` frame on the banana
body: whether the `onTransition` callback was invoked and whether
`playThudSound` was called. -/
structure FrameEvents : Type where
  transitionCalled : Bool
  thudPlayed : Bool
  deriving DecidableEq, Repr

/-- One `animate` frame for the banana body (lines 663-685), at clamped
delta-time `dt`: guarded by `bananaFalling && !settled`; integrate
gravity `9.8`, position, rotation; fire `onTransition` once on
`position.y < -2`; on `position.y < -3` clamp to the floor, damp
velocities by `-0.45` / `-0.5`, play the thud, and settle (zeroing both
velocities) when the rebound speed is below `0.4`. -/
def bananaFrame (st : BananaState) (dt : ℚ) : BananaState × FrameEvents :=
  if st.falling && !st.settled then
    let v1 := st.vel - 49/5 * dt
    let y1 := st.posY + v1 * dt
    let r1 := st.rotX + st.rotVelX * dt
    let fired := !st.transitionFired && decide (y1 < -2)
    let tf := st.transitionFired || decide (y1 < -2)
    if y1 < -3 then
      let v2 := v1 * (-(9/20))
      let rv2 := st.rotVelX * (-(1/2))
      if |v2| < 2/5 then
        ({ st with
            vel := 0, posY := -3, rotX := r1, rotVelX := 0,
            settled := true, transitionFired := tf },
         { transitionCalled := fired, thudPlayed := true })
      else
        ({ st with
            vel := v2, posY := -3, rotX := r1, rotVelX := rv2,
            transitionFired := tf },
         { transitionCalled := fired, thudPlayed := true })
    else
      ({ st with vel := v1, posY := y1, rotX := r1, transitionFired := tf },
       { transitionCalled := fired, thudPlayed := false })
  else (st, { transitionCalled := false, thudPlayed := false })

/-- Number of `onTransition` invocations over a sequence of frames. -/
def transitionCount : BananaState → List ℚ → Nat
  | _, [] => 0
  | st, dt :: rest =>
    let step := bananaFrame st dt
    (if step.2.transitionCalled then 1 else 0) + transitionCount step.1 rest

/-- A concrete bounding-box configuration used to instantiate theorems:
tape spanning `[0,2]` and wrapped object spanning `[0,1]` on each axis. -/
def cfgDemo : TapeConfig :=
  { tapeMin := fun _ => 0
    tapeMax := fun _ => 2
    banMin := fun _ => 0
    banMax := fun _ => 1 }

/-- A concrete degenerate configuration: tape and wrapped-object boxes
collapsed to the origin, so the locked-axis span and the projected
numerator are both zero (`0/0` in the source). -/
def cfgZero : TapeConfig :=
  { tapeMin := fun _ => 0
    tapeMax := fun _ => 0
    banMin := fun _ => 0
    banMax := fun _ => 0 }

/-- A concrete interaction state with no locked axis and progress `1/2`. -/
def stDemo : SimState :=
  { isTorn := false
    isDragging := false
    isDeterminingDir := true
    peelConfigured := false
    targetProgress := 1/2
    currentProgress := 1/2
    curAxis := none
    curSign := 0
    uPeelEdge := 0
    uMaxDist := 1
    fallThreshold := 1
    dragStartLocalHit := none }

/-- A concrete interaction state with progress below the `0.05` resume
threshold. -/
def stFresh : SimState :=
  { stDemo with targetProgress := 1/100, currentProgress := 1/100 }

/-- A concrete falling banana body one frame before a soft landing:
at `dt = 0` the incoming velocity `-(2/3)` reflects to rebound speed
`3/10 < 2/5`. -/
def stBounce : BananaState :=
  { falling := true
    vel := -(2/3)
    posY := -4
    rotX := 0
    rotVelX := 2
    settled := false
    transitionFired := true }

/-- A concrete banana body at the start of its fall. -/
def stFall : BananaState :=
  { falling := true
    vel := 0
    posY := 0
    rotX := 0
    rotVelX := 2
    settled := false
    transitionFired := false }

/-- C1: for every vertex with signed peel distance `s ≤ 0`, and also
whenever `maxDistance ≤ 0`, the deformation law leaves the vertex
undisturbed: its displacement is exactly zero and its geometric normal is
not rotated (no pre-peel distortion). -/
theorem C1_undisturbed_before_peel (R maxDist peel edge pN nP nF nK : ℝ)
    (h : peel * maxDist - (pN - edge) ≤ 0 ∨ maxDist ≤ 0) :
    vertexDisp R maxDist peel edge pN = (0, 0) ∧
    vertexNormalRot R maxDist peel edge pN nP nF nK = (nP, nF, nK) := by
  have hcond : ¬ (0 < peel * maxDist - (pN - edge) ∧ 0 < maxDist) := by
    rcases h with h | h
    · exact fun hc => absurd hc.1 (not_lt.mpr h)
    · exact fun hc => absurd hc.2 (not_lt.mpr h)
  constructor
  · simp only [vertexDisp]
    rw [if_neg hcond]
  · simp only [vertexNormalRot]
    rw [if_neg hcond]

/-- Witness for C1 at the concrete input `R = 0.12`, `maxDist = 1`,
`peel = 0`, `edge = 0`, vertex component `pN = 1` (so `s = -1 ≤ 0`). -/
theorem C1_witness :
    vertexDisp (12/100) 1 0 0 1 = (0, 0) ∧
    vertexNormalRot (12/100) 1 0 0 1 2 3 4 = (2, 3, 4) :=
  C1_undisturbed_before_peel (12/100) 1 0 0 1 2 3 4 (Or.inl (by norm_num))

/-- Exact-arithmetic clamp bound: the value stored by `determineLock`
(`fallThresholdCalc`, total division) always lies in `[0.3, 0.95]`. -/
theorem fallThresholdCalc_mem (cfg : TapeConfig) (ax : Axis) (sign : Int) :
    3/10 ≤ fallThresholdCalc cfg ax sign ∧
    fallThresholdCalc cfg ax sign ≤ 19/20 := by
  unfold fallThresholdCalc
  exact ⟨le_min (le_max_right _ _) (by norm_num), min_le_right _ _⟩

/-- The `+ 0.05` / `Math.max` / `Math.min` clamp pipeline sends every
value other than `NaN` to a finite number in `[0.3, 0.95]`. -/
theorem jsClamp_mem (d : JsNum) (hd : d ≠ JsNum.nan) :
    ∃ q : ℚ, ((d.add (1/20)).maxQ (3/10)).minQ (19/20) = JsNum.fin q ∧
      3/10 ≤ q ∧ q ≤ 19/20 := by
  cases d with
  | nan => exact absurd rfl hd
  | posInf => exact ⟨19/20, rfl, by norm_num, by norm_num⟩
  | negInf =>
    exact ⟨min (3/10) (19/20), rfl, le_min le_rfl (by norm_num),
      min_le_right _ _⟩
  | fin a =>
    exact ⟨min (max (a + 1/20) (3/10)) (19/20), rfl,
      le_min (le_max_right _ _) (by norm_num), min_le_right _ _⟩

/-- JS division produces `NaN` only for `0/0`. -/
theorem jsDiv_ne_nan (a b : ℚ) (h : b ≠ 0 ∨ a ≠ 0) :
    jsDiv a b ≠ JsNum.nan := by
  unfold jsDiv
  rcases h with h | h
  · rw [if_neg h]
    exact fun hc => JsNum.noConfusion hc
  · by_cases hb : b = 0
    · rw [if_pos hb, if_neg h]
      split_ifs <;> exact fun hc => JsNum.noConfusion hc
    · rw [if_neg hb]
      exact fun hc => JsNum.noConfusion hc

/-- Whenever the span is nonzero, the JavaScript-semantics threshold is
the finite value computed by `fallThresholdCalc`. -/
theorem fallThresholdJs_of_span_ne (cfg : TapeConfig) (ax : Axis)
    (sign : Int) (h : cfg.tapeMax ax - cfg.tapeMin ax ≠ 0) :
    fallThresholdJs cfg ax sign = JsNum.fin (fallThresholdCalc cfg ax sign) := by
  by_cases hs : sign = 1 <;>
    simp [fallThresholdJs, fallThresholdCalc, jsDiv, hs, h,
      JsNum.add, JsNum.maxQ, JsNum.minQ]

/-- C4 counterexample: on the degenerate geometry `cfgZero` (zero tape
span with the projected numerator also zero) the unguarded source
division is `0/0 = NaN`, which `Math.max`/`Math.min` propagate, so the
computed threshold is `NaN` and no finite value in `[0.3, 0.95]` is
produced — refuting the claim on the zero-span inputs it includes. -/
theorem C4_counterexample :
    fallThresholdJs cfgZero Axis.x 1 = JsNum.nan ∧
    ¬ ∃ q : ℚ, fallThresholdJs cfgZero Axis.x 1 = JsNum.fin q ∧
        3/10 ≤ q ∧ q ≤ 19/20 := by
  have hnan : fallThresholdJs cfgZero Axis.x 1 = JsNum.nan := by
    simp [fallThresholdJs, cfgZero, jsDiv, JsNum.add, JsNum.maxQ, JsNum.minQ]
  refine ⟨hnan, ?_⟩
  rintro ⟨q, hq, -, -⟩
  rw [hnan] at hq
  exact JsNum.noConfusion hq

/-- C4 amended: at every direction lock whose computation is not the
unguarded `0/0` — that is, whenever the tape span along the locked axis
is nonzero, or the span is zero but the projected numerator is nonzero
(the resulting signed infinity is clamped to an endpoint) — the computed
fall-trigger threshold is a finite value in `[0.3, 0.95]`, for every
input bounding-box geometry including degenerate (zero-volume)
wrapped-object boxes. -/
theorem C4_threshold_finite_in_range (cfg : TapeConfig) (ax : Axis)
    (sign : Int)
    (h : cfg.tapeMax ax - cfg.tapeMin ax ≠ 0 ∨
      (if sign = 1 then cfg.banMax ax - cfg.tapeMin ax
       else cfg.tapeMax ax - cfg.banMin ax) ≠ 0) :
    ∃ q : ℚ, fallThresholdJs cfg ax sign = JsNum.fin q ∧
      3/10 ≤ q ∧ q ≤ 19/20 := by
  have hd : jsDiv
      (if sign = 1 then cfg.banMax ax - cfg.tapeMin ax
       else cfg.tapeMax ax - cfg.banMin ax)
      (cfg.tapeMax ax - cfg.tapeMin ax) ≠ JsNum.nan :=
    jsDiv_ne_nan _ _ h
  simp only [fallThresholdJs]
  exact jsClamp_mem _ hd

/-- Witness for the amended C4 at the concrete geometry `cfgDemo`
(span `2`, wrapped-object extent `1`). -/
theorem C4_witness :
    ∃ q : ℚ, fallThresholdJs cfgDemo Axis.x 1 = JsNum.fin q ∧
      3/10 ≤ q ∧ q ≤ 19/20 :=
  C4_threshold_finite_in_range cfgDemo Axis.x 1
    (Or.inl (by norm_num [cfgDemo]))

/-- C6: whenever direction determination locks an `(axis, sign)` pair
that differs from the previously locked pair, both `targetProgress` and
`currentProgress` are reset to exactly `0` (and the new pair is locked);
if the locked pair is unchanged, neither progress value is changed. -/
theorem C6_relock_resets_progress (cfg : TapeConfig) (st : SimState)
    (ax : Axis) (hv : ℚ) :
    (¬ (st.curAxis = some ax ∧ st.curSign = lockSign cfg ax hv) →
      (determineLock cfg st ax hv).targetProgress = 0 ∧
      (determineLock cfg st ax hv).currentProgress = 0 ∧
      (determineLock cfg st ax hv).curAxis = some ax ∧
      (determineLock cfg st ax hv).curSign = lockSign cfg ax hv) ∧
    ((st.curAxis = some ax ∧ st.curSign = lockSign cfg ax hv) →
      (determineLock cfg st ax hv).targetProgress = st.targetProgress ∧
      (determineLock cfg st ax hv).currentProgress = st.currentProgress) := by
  constructor
  · intro h
    simp only [determineLock]
    rw [if_neg h]
    exact ⟨rfl, rfl, rfl, rfl⟩
  · intro h
    simp only [determineLock]
    rw [if_pos h]
    exact ⟨rfl, rfl⟩

/-- Witness for C6: from the unlocked state `stDemo`, locking axis `x`
with start hit at `0` resets both progress values to `0`. -/
theorem C6_witness :
    (determineLock cfgDemo stDemo Axis.x 0).targetProgress = 0 ∧
    (determineLock cfgDemo stDemo Axis.x 0).currentProgress = 0 ∧
    (determineLock cfgDemo stDemo Axis.x 0).curAxis = some Axis.x ∧
    (determineLock cfgDemo stDemo Axis.x 0).curSign =
      lockSign cfgDemo Axis.x 0 :=
  (C6_relock_resets_progress cfgDemo stDemo Axis.x 0).1 (by simp [stDemo])

/-- C10: on a pointer-down hitting the proxy while not torn, if
`currentProgress > 0.05` the session bypasses direction determination
and resumes peeling with the previously locked axis, sign and progress
values unchanged, for every hit point; if `currentProgress ≤ 0.05` it
enters direction determination instead, recording the start hit. -/
theorem C10_onDown_resume_or_redetermine (st : SimState) (p : ℚ × ℚ × ℚ)
    (hTorn : st.isTorn = false) :
    (1/20 < st.currentProgress →
      (onDown st (some p)).isDragging = true ∧
      (onDown st (some p)).isDeterminingDir = false ∧
      (onDown st (some p)).peelConfigured = true ∧
      (onDown st (some p)).curAxis = st.curAxis ∧
      (onDown st (some p)).curSign = st.curSign ∧
      (onDown st (some p)).targetProgress = st.targetProgress ∧
      (onDown st (some p)).currentProgress = st.currentProgress) ∧
    (st.currentProgress ≤ 1/20 →
      (onDown st (some p)).isDragging = true ∧
      (onDown st (some p)).isDeterminingDir = true ∧
      (onDown st (some p)).peelConfigured = false ∧
      (onDown st (some p)).dragStartLocalHit = some p) := by
  constructor
  · intro h
    simp only [onDown, hTorn, Bool.false_eq_true, if_false]
    rw [if_pos h]
    exact ⟨rfl, rfl, rfl, rfl, rfl, rfl, rfl⟩
  · intro h
    simp only [onDown, hTorn, Bool.false_eq_true, if_false]
    rw [if_neg (not_lt.mpr h)]
    exact ⟨rfl, rfl, rfl, rfl⟩

/-- Witness for C10: with progress `1/100 ≤ 0.05` the press enters
direction determination and records the hit point. -/
theorem C10_witness :
    (onDown stFresh (some (0, 0, 0))).isDragging = true ∧
    (onDown stFresh (some (0, 0, 0))).isDeterminingDir = true ∧
    (onDown stFresh (some (0, 0, 0))).peelConfigured = false ∧
    (onDown stFresh (some (0, 0, 0))).dragStartLocalHit = some (0, 0, 0) :=
  (C10_onDown_resume_or_redetermine stFresh (0, 0, 0) rfl).2 (by norm_num [stFresh, stDemo])

/-- C7: every pointer-move while configured and not torn updates
`targetProgress` to its previous value plus normalized drag distance
times sensitivity, clamped into `[0, 1.05]`; the clamp holds for every
input, the only other writer of `targetProgress` (the direction lock)
either resets it to `0` or leaves it unchanged, so `[0, 1.05]` is an
invariant; and with sensitivity `3.5` (the `clientWidth ≥ 768` value) a
single normalized drag of magnitude `0.3` from progress `0` yields
exactly `1.05`. -/
theorem C7_target_progress_invariant :
    (∀ prev sdx sdy w h sens : ℝ,
      0 ≤ onMoveTarget prev sdx sdy w h sens ∧
      onMoveTarget prev sdx sdy w h sens ≤ 21/20) ∧
    (∀ (cfg : TapeConfig) (st : SimState) (ax : Axis) (hv : ℚ),
      (determineLock cfg st ax hv).targetProgress = 0 ∨
      (determineLock cfg st ax hv).targetProgress = st.targetProgress) ∧
    sensitivityFor 1024 = 7/2 ∧
    onMoveTarget 0 (3/10) 0 1 1 (7/2) = 21/20 := by
  refine ⟨?_, ?_, ?_, ?_⟩
  · intro prev sdx sdy w h sens
    simp only [onMoveTarget]
    exact ⟨le_max_left 0 _, max_le (by norm_num) (min_le_left _ _)⟩
  · intro cfg st ax hv
    by_cases h : st.curAxis = some ax ∧ st.curSign = lockSign cfg ax hv
    · right
      simp only [determineLock]
      rw [if_pos h]
    · left
      simp only [determineLock]
      rw [if_neg h]
  · norm_num [sensitivityFor]
  · simp only [onMoveTarget]
    have hsq : (3/10 : ℝ) / 1 * ((3/10 : ℝ) / 1) + (0 : ℝ) / 1 * ((0 : ℝ) / 1)
        = (3/10 : ℝ) ^ 2 := by norm_num
    rw [hsq, Real.sqrt_sq (by norm_num)]
    norm_num

/-- Derivative of the peel-normal displacement component:
`d/ds (s - R sin(s/R)) = 1 - cos(s/R)` for `R ≠ 0`. -/
theorem hasDerivAt_curlDN (R : ℝ) (hR : R ≠ 0) (s : ℝ) :
    HasDerivAt (curlDN R) (1 - Real.cos (s / R)) s := by
  have hdiv : HasDerivAt (fun t : ℝ => t / R) (1 / R) s := by
    simpa using (hasDerivAt_id s).div_const R
  have hsin : HasDerivAt (fun t : ℝ => Real.sin (t / R))
      (Real.cos (s / R) * (1 / R)) s :=
    (Real.hasDerivAt_sin (s / R)).comp s hdiv
  have h1 : HasDerivAt (fun t : ℝ => R * Real.sin (t / R))
      (R * (Real.cos (s / R) * (1 / R))) s := hsin.const_mul R
  have h2 := (hasDerivAt_id s).sub h1
  have heq : 1 - R * (Real.cos (s / R) * (1 / R)) = 1 - Real.cos (s / R) := by
    field_simp
  rw [heq] at h2
  exact h2

/-- Derivative of the flat-direction displacement component:
`d/ds (R (1 - cos(s/R))) = sin(s/R)` for `R ≠ 0`. -/
theorem hasDerivAt_curlDF (R : ℝ) (hR : R ≠ 0) (s : ℝ) :
    HasDerivAt (curlDF R) (Real.sin (s / R)) s := by
  have hdiv : HasDerivAt (fun t : ℝ => t / R) (1 / R) s := by
    simpa using (hasDerivAt_id s).div_const R
  have hcos : HasDerivAt (fun t : ℝ => Real.cos (t / R))
      (-Real.sin (s / R) * (1 / R)) s :=
    (Real.hasDerivAt_cos (s / R)).comp s hdiv
  have h1 : HasDerivAt (fun t : ℝ => 1 - Real.cos (t / R))
      (-(-Real.sin (s / R) * (1 / R))) s := hcos.const_sub 1
  have h2 : HasDerivAt (fun t : ℝ => R * (1 - Real.cos (t / R)))
      (R * -(-Real.sin (s / R) * (1 / R))) s := h1.const_mul R
  have heq : R * -(-Real.sin (s / R) * (1 / R)) = Real.sin (s / R) := by
    field_simp
  rw [heq] at h2
  exact h2

/-- C2: for every positive curl radius `R`, the displacement components
`s - R sin(s/R)` (peel normal) and `R (1 - cos(s/R))` (flat direction)
and their derivatives with respect to `s` (namely `1 - cos(s/R)` and
`sin(s/R)`) all tend to `0` as `s` approaches `0` from above, so the
curled region joins the undisturbed region with no seam. -/
theorem C2_continuous_at_boundary (R : ℝ) (hR : 0 < R) :
    Filter.Tendsto (curlDN R) (nhdsWithin 0 (Set.Ioi 0)) (nhds 0) ∧
    Filter.Tendsto (curlDF R) (nhdsWithin 0 (Set.Ioi 0)) (nhds 0) ∧
    (∀ s : ℝ, HasDerivAt (curlDN R) (1 - Real.cos (s / R)) s) ∧
    (∀ s : ℝ, HasDerivAt (curlDF R) (Real.sin (s / R)) s) ∧
    Filter.Tendsto (fun s : ℝ => 1 - Real.cos (s / R))
      (nhdsWithin 0 (Set.Ioi 0)) (nhds 0) ∧
    Filter.Tendsto (fun s : ℝ => Real.sin (s / R))
      (nhdsWithin 0 (Set.Ioi 0)) (nhds 0) := by
  have hR' : R ≠ 0 := ne_of_gt hR
  have hcN : Continuous (curlDN R) := by
    have : Differentiable ℝ (curlDN R) :=
      fun s => (hasDerivAt_curlDN R hR' s).differentiableAt
    exact this.continuous
  have hcF : Continuous (curlDF R) := by
    have : Differentiable ℝ (curlDF R) :=
      fun s => (hasDerivAt_curlDF R hR' s).differentiableAt
    exact this.continuous
  have hdivc : Continuous (fun s : ℝ => s / R) := continuous_id.div_const R
  refine ⟨?_, ?_, hasDerivAt_curlDN R hR', hasDerivAt_curlDF R hR', ?_, ?_⟩
  · have h0 : curlDN R 0 = 0 := by simp [curlDN]
    have := hcN.tendsto 0
    rw [h0] at this
    exact this.mono_left nhdsWithin_le_nhds
  · have h0 : curlDF R 0 = 0 := by simp [curlDF]
    have := hcF.tendsto 0
    rw [h0] at this
    exact this.mono_left nhdsWithin_le_nhds
  · have hc : Continuous (fun s : ℝ => 1 - Real.cos (s / R)) :=
      continuous_const.sub (Real.continuous_cos.comp hdivc)
    have := hc.tendsto 0
    have h0 : 1 - Real.cos (0 / R) = 0 := by simp
    rw [h0] at this
    exact this.mono_left nhdsWithin_le_nhds
  · have hc : Continuous (fun s : ℝ => Real.sin (s / R)) :=
      Real.continuous_sin.comp hdivc
    have := hc.tendsto 0
    have h0 : Real.sin (0 / R) = 0 := by simp
    rw [h0] at this
    exact this.mono_left nhdsWithin_le_nhds

/-- Witness for C2 at the concrete curl radius `R = 1`. -/
theorem C2_witness :
    Filter.Tendsto (curlDN 1) (nhdsWithin 0 (Set.Ioi 0)) (nhds 0) ∧
    Filter.Tendsto (curlDF 1) (nhdsWithin 0 (Set.Ioi 0)) (nhds 0) ∧
    (∀ s : ℝ, HasDerivAt (curlDN 1) (1 - Real.cos (s / 1)) s) ∧
    (∀ s : ℝ, HasDerivAt (curlDF 1) (Real.sin (s / 1)) s) ∧
    Filter.Tendsto (fun s : ℝ => 1 - Real.cos (s / 1))
      (nhdsWithin 0 (Set.Ioi 0)) (nhds 0) ∧
    Filter.Tendsto (fun s : ℝ => Real.sin (s / 1))
      (nhdsWithin 0 (Set.Ioi 0)) (nhds 0) :=
  C2_continuous_at_boundary 1 (by norm_num)

/-- C3 counterexample: the flat-direction displacement component
`R (1 - cos(s/R))` is not monotone non-decreasing on `s > 0`.  At the
concrete curl radius `R = 1` it decreases from `s = 3` to `s = 6`
(since `cos 3 < 0 < cos 6`), refuting the claim as stated. -/
theorem C3_counterexample :
    curlDF 1 6 < curlDF 1 3 ∧ ¬ MonotoneOn (curlDF 1) (Set.Ioi 0) := by
  have hpi1 : Real.pi < 3.15 := Real.pi_lt_d2
  have hpi2 : 3 < Real.pi := Real.pi_gt_three
  have hcos3 : Real.cos 3 < 0 := by
    apply Real.cos_neg_of_pi_div_two_lt_of_lt <;> linarith
  have hcos6 : 0 < Real.cos 6 := by
    rw [← Real.cos_sub_two_pi 6]
    apply Real.cos_pos_of_mem_Ioo
    constructor <;> linarith
  have hlt : curlDF 1 6 < curlDF 1 3 := by
    simp only [curlDF, div_one, one_mul]
    linarith
  refine ⟨hlt, fun hmono => ?_⟩
  have h36 := hmono (Set.mem_Ioi.mpr (by norm_num : (0:ℝ) < 3))
    (Set.mem_Ioi.mpr (by norm_num : (0:ℝ) < 6)) (by norm_num : (3:ℝ) ≤ 6)
  linarith

/-- C3 amended: for every positive curl radius `R`, the peel-normal
displacement component `s - R sin(s/R)` and the rotation angle
`a = s / R` are monotone non-decreasing for `s > 0`; the flat-direction
component `R (1 - cos(s/R))` is monotone only up to half a turn of the
curl, on `[0, π R]` (beyond that it oscillates with period `2 π R`). -/
theorem C3_amended_monotone (R : ℝ) (hR : 0 < R) :
    MonotoneOn (curlDN R) (Set.Ioi 0) ∧
    MonotoneOn (fun s : ℝ => s / R) (Set.Ioi 0) ∧
    MonotoneOn (curlDF R) (Set.Icc 0 (Real.pi * R)) := by
  have hR' : R ≠ 0 := ne_of_gt hR
  have hdiffF : Differentiable ℝ (curlDF R) :=
    fun s => (hasDerivAt_curlDF R hR' s).differentiableAt
  refine ⟨?_, ?_, ?_⟩
  · have hmono : Monotone (curlDN R) := by
      apply monotone_of_deriv_nonneg
      · exact fun s => (hasDerivAt_curlDN R hR' s).differentiableAt
      · intro x
        rw [(hasDerivAt_curlDN R hR' x).deriv]
        have := Real.cos_le_one (x / R)
        linarith
    exact hmono.monotoneOn _
  · intro a _ b _ hab
    exact (div_le_div_iff_of_pos_right hR).mpr hab
  · apply monotoneOn_of_deriv_nonneg (convex_Icc 0 (Real.pi * R))
    · exact hdiffF.continuous.continuousOn
    · exact hdiffF.differentiableOn
    · intro x hx
      rw [interior_Icc] at hx
      rw [(hasDerivAt_curlDF R hR' x).deriv]
      apply Real.sin_nonneg_of_nonneg_of_le_pi
      · exact le_of_lt (div_pos hx.1 hR)
      · rw [div_le_iff₀ hR]
        linarith [hx.2]

/-- Witness for the amended C3 at the concrete curl radius `R = 1`. -/
theorem C3_witness :
    MonotoneOn (curlDN 1) (Set.Ioi 0) ∧
    MonotoneOn (fun s : ℝ => s / 1) (Set.Ioi 0) ∧
    MonotoneOn (curlDF 1) (Set.Icc 0 (Real.pi * 1)) :=
  C3_amended_monotone 1 (by norm_num)

/-- Once `transitionFired` is set, a frame never invokes the callback
again and the flag stays set. -/
theorem bananaFrame_fired_stable (st : BananaState) (dt : ℚ)
    (h : st.transitionFired = true) :
    (bananaFrame st dt).2.transitionCalled = false ∧
    (bananaFrame st dt).1.transitionFired = true := by
  simp only [bananaFrame]
  split_ifs <;> simp [h]

/-- A frame that invokes the callback sets `transitionFired`. -/
theorem bananaFrame_called_imp_fired (st : BananaState) (dt : ℚ)
    (h : (bananaFrame st dt).2.transitionCalled = true) :
    (bananaFrame st dt).1.transitionFired = true := by
  simp only [bananaFrame] at h ⊢
  split_ifs at h ⊢ <;> simp_all

/-- A frame that does not invoke the callback leaves `transitionFired`
clear when it was clear. -/
theorem bananaFrame_not_called_not_fired (st : BananaState) (dt : ℚ)
    (h0 : st.transitionFired = false)
    (h : (bananaFrame st dt).2.transitionCalled = false) :
    (bananaFrame st dt).1.transitionFired = false := by
  simp only [bananaFrame] at h ⊢
  split_ifs at h ⊢ <;> simp_all

/-- Once `transitionFired` is set, no later frame invokes the callback. -/
theorem transitionCount_zero_of_fired (dts : List ℚ) (st : BananaState)
    (h : st.transitionFired = true) : transitionCount st dts = 0 := by
  induction dts generalizing st with
  | nil => rfl
  | cons dt rest ih =>
    have hstep := bananaFrame_fired_stable st dt h
    simp only [transitionCount]
    rw [ih _ hstep.2]
    simp [hstep.1]

/-- Across any frame sequence started before the callback has fired, it
is invoked at most once. -/
theorem transitionCount_le_one (dts : List ℚ) (st : BananaState)
    (h : st.transitionFired = false) : transitionCount st dts ≤ 1 := by
  induction dts generalizing st with
  | nil => simp [transitionCount]
  | cons dt rest ih =>
    simp only [transitionCount]
    by_cases hc : (bananaFrame st dt).2.transitionCalled = true
    · rw [transitionCount_zero_of_fired rest _
        (bananaFrame_called_imp_fired st dt hc)]
      simp [hc]
    · have hc' : (bananaFrame st dt).2.transitionCalled = false := by
        revert hc
        cases (bananaFrame st dt).2.transitionCalled <;> simp
      have h2 := bananaFrame_not_called_not_fired st dt h hc'
      rw [hc']
      simpa using ih _ h2

/-- C8: across every frame sequence of one lifetime the external
transition callback is invoked exactly once: never once
`transitionFired` is set (and the flag, once set, stays set); never
while the object is not falling; in a given frame exactly when the body
is falling, not settled, the flag is clear, and the integrated position
first goes below the fixed altitude `-2`; and at most once over any
sequence of frames started with the flag clear. -/
theorem C8_transition_fires_exactly_once :
    (∀ (st : BananaState) (dt : ℚ), st.transitionFired = true →
      (bananaFrame st dt).2.transitionCalled = false ∧
      (bananaFrame st dt).1.transitionFired = true) ∧
    (∀ (st : BananaState) (dt : ℚ), st.falling = false →
      (bananaFrame st dt).2.transitionCalled = false) ∧
    (∀ (st : BananaState) (dt : ℚ),
      (bananaFrame st dt).2.transitionCalled = true ↔
        st.falling = true ∧ st.settled = false ∧ st.transitionFired = false ∧
        st.posY + (st.vel - 49/5 * dt) * dt < -2) ∧
    (∀ (st : BananaState) (dts : List ℚ), st.transitionFired = false →
      transitionCount st dts ≤ 1) := by
  refine ⟨bananaFrame_fired_stable, ?_, ?_, fun st dts h =>
    transitionCount_le_one dts st h⟩
  · intro st dt h
    simp [bananaFrame, h]
  · intro st dt
    simp only [bananaFrame]
    split_ifs with hg h1 h2
    · simp at hg ⊢
      tauto
    · simp at hg ⊢
      tauto
    · simp at hg ⊢
      tauto
    · simp at hg ⊢
      intro hf hs htf
      exfalso
      simp [hg hf] at hs

/-- Witness for C8: a fresh falling body fires the callback at most once
over two frames, and a body whose flag is already set never calls. -/
theorem C8_witness :
    transitionCount stFall [1/30, 1/30] ≤ 1 ∧
    (bananaFrame stBounce 0).2.transitionCalled = false :=
  ⟨C8_transition_fires_exactly_once.2.2.2 stFall [1/30, 1/30] rfl,
   (C8_transition_fires_exactly_once.1 stBounce 0 rfl).1⟩

/-- C9: on every frame in which the falling, unsettled body's integrated
position crosses the fixed floor `-3`, the position is clamped to the
floor, a thud cue plays, vertical velocity is multiplied by `-0.45` and
angular velocity by `-0.5`; when the reflected speed's magnitude is
below `0.4` both velocities are instead set to exactly `0` and the body
is marked settled; and a settled body is a terminal no-op: no further
motion, no callback and no thud. -/
theorem C9_floor_bounce (st : BananaState) (dt : ℚ)
    (hfall : st.falling = true) (hset : st.settled = false)
    (hfloor : st.posY + (st.vel - 49/5 * dt) * dt < -3) :
    (bananaFrame st dt).2.thudPlayed = true ∧
    (bananaFrame st dt).1.posY = -3 ∧
    (|(st.vel - 49/5 * dt) * (-(9/20))| < 2/5 →
      (bananaFrame st dt).1.vel = 0 ∧
      (bananaFrame st dt).1.rotVelX = 0 ∧
      (bananaFrame st dt).1.settled = true) ∧
    (¬ |(st.vel - 49/5 * dt) * (-(9/20))| < 2/5 →
      (bananaFrame st dt).1.vel = (st.vel - 49/5 * dt) * (-(9/20)) ∧
      (bananaFrame st dt).1.rotVelX = st.rotVelX * (-(1/2)) ∧
      (bananaFrame st dt).1.settled = false) ∧
    (∀ (st' : BananaState) (dt' : ℚ), st'.settled = true →
      bananaFrame st' dt' =
        (st', { transitionCalled := false, thudPlayed := false })) := by
  have hguard : (st.falling && !st.settled) = true := by simp [hfall, hset]
  refine ⟨?_, ?_, ?_, ?_, ?_⟩
  · simp only [bananaFrame]
    rw [if_pos hguard, if_pos hfloor]
    split_ifs <;> rfl
  · simp only [bananaFrame]
    rw [if_pos hguard, if_pos hfloor]
    split_ifs <;> rfl
  · intro habs
    simp only [bananaFrame]
    rw [if_pos hguard, if_pos hfloor, if_pos habs]
    exact ⟨rfl, rfl, rfl⟩
  · intro habs
    simp only [bananaFrame]
    rw [if_pos hguard, if_pos hfloor, if_neg habs]
    exact ⟨rfl, rfl, hset⟩
  · intro st' dt' h'
    simp [bananaFrame, h']

/-- Witness for C9 at the concrete state `stBounce` with `dt = 0`: the
incoming velocity `-(2/3)` reflects to speed `3/10 < 2/5`, so the body
lands on the floor, thuds once, and settles with both velocities zero. -/
theorem C9_witness :
    (bananaFrame stBounce 0).2.thudPlayed = true ∧
    (bananaFrame stBounce 0).1.posY = -3 ∧
    (bananaFrame stBounce 0).1.vel = 0 ∧
    (bananaFrame stBounce 0).1.rotVelX = 0 ∧
    (bananaFrame stBounce 0).1.settled = true := by
  have h := C9_floor_bounce stBounce 0 rfl rfl (by norm_num [stBounce])
  have hsmall : |(stBounce.vel - 49/5 * 0) * (-(9/20))| < 2/5 := by
    have hv : (stBounce.vel - 49/5 * 0) * (-(9/20)) = 3/10 := by
      norm_num [stBounce]
    rw [hv, abs_of_nonneg (by norm_num : (0:ℚ) ≤ 3/10)]
    norm_num
  exact ⟨h.1, h.2.1, (h.2.2.1 hsmall).1, (h.2.2.1 hsmall).2.1,
    (h.2.2.1 hsmall).2.2⟩

/-- C5: for every bounding box with extents `(ex, ey, ez)`, the axis
classification of `setupTapePeel` assigns `lengthAxis`, `widthAxis`,
`flatAxis` in descending order of extent (largest first), the three
assigned axes are mutually exclusive, and ties between equal extents are
broken by the axis priority `x < y < z` (the stable-sort order of the
`dims` array). -/
theorem C5_axis_classification (ex ey ez : ℚ) :
    (classifyAxes ex ey ez).1 ≠ (classifyAxes ex ey ez).2.1 ∧
    (classifyAxes ex ey ez).1 ≠ (classifyAxes ex ey ez).2.2 ∧
    (classifyAxes ex ey ez).2.1 ≠ (classifyAxes ex ey ez).2.2 ∧
    axisExtent ex ey ez (classifyAxes ex ey ez).2.1 ≤
      axisExtent ex ey ez (classifyAxes ex ey ez).1 ∧
    axisExtent ex ey ez (classifyAxes ex ey ez).2.2 ≤
      axisExtent ex ey ez (classifyAxes ex ey ez).2.1 ∧
    (axisExtent ex ey ez (classifyAxes ex ey ez).1 =
       axisExtent ex ey ez (classifyAxes ex ey ez).2.1 →
      axisPrio (classifyAxes ex ey ez).1 <
        axisPrio (classifyAxes ex ey ez).2.1) ∧
    (axisExtent ex ey ez (classifyAxes ex ey ez).2.1 =
       axisExtent ex ey ez (classifyAxes ex ey ez).2.2 →
      axisPrio (classifyAxes ex ey ez).2.1 <
        axisPrio (classifyAxes ex ey ez).2.2) ∧
    (axisExtent ex ey ez (classifyAxes ex ey ez).1 =
       axisExtent ex ey ez (classifyAxes ex ey ez).2.2 →
      axisPrio (classifyAxes ex ey ez).1 <
        axisPrio (classifyAxes ex ey ez).2.2) := by
  rcases le_or_lt ez ey with h1 | h1 <;>
    rcases le_or_lt ey ex with h2 | h2 <;>
      rcases le_or_lt ez ex with h3 | h3
  · have hc : classifyAxes ex ey ez = (Axis.x, Axis.y, Axis.z) := by
      simp only [classifyAxes, List.insertionSort, List.orderedInsert,
        if_pos h1, if_pos h2]
    rw [hc]
    refine ⟨by decide, by decide, by decide, ?_, ?_, ?_, ?_, ?_⟩ <;>
      simp only [axisExtent, axisPrio] <;>
      first
        | linarith
        | (intro h; decide)
        | (intro h; exfalso; linarith)
  · exfalso
    linarith
  · have hc : classifyAxes ex ey ez = (Axis.y, Axis.x, Axis.z) := by
      simp only [classifyAxes, List.insertionSort, List.orderedInsert,
        if_pos h1, if_neg (not_le.mpr h2), if_pos h3]
    rw [hc]
    refine ⟨by decide, by decide, by decide, ?_, ?_, ?_, ?_, ?_⟩ <;>
      simp only [axisExtent, axisPrio] <;>
      first
        | linarith
        | (intro h; decide)
        | (intro h; exfalso; linarith)
  · have hc : classifyAxes ex ey ez = (Axis.y, Axis.z, Axis.x) := by
      simp only [classifyAxes, List.insertionSort, List.orderedInsert,
        if_pos h1, if_neg (not_le.mpr h2), if_neg (not_le.mpr h3)]
    rw [hc]
    refine ⟨by decide, by decide, by decide, ?_, ?_, ?_, ?_, ?_⟩ <;>
      simp only [axisExtent, axisPrio] <;>
      first
        | linarith
        | (intro h; decide)
        | (intro h; exfalso; linarith)
  · have hc : classifyAxes ex ey ez = (Axis.x, Axis.z, Axis.y) := by
      simp only [classifyAxes, List.insertionSort, List.orderedInsert,
        if_neg (not_le.mpr h1), if_pos h3]
    rw [hc]
    refine ⟨by decide, by decide, by decide, ?_, ?_, ?_, ?_, ?_⟩ <;>
      simp only [axisExtent, axisPrio] <;>
      first
        | linarith
        | (intro h; decide)
        | (intro h; exfalso; linarith)
  · have hc : classifyAxes ex ey ez = (Axis.z, Axis.x, Axis.y) := by
      simp only [classifyAxes, List.insertionSort, List.orderedInsert,
        if_neg (not_le.mpr h1), if_neg (not_le.mpr h3), if_pos h2]
    rw [hc]
    refine ⟨by decide, by decide, by decide, ?_, ?_, ?_, ?_, ?_⟩ <;>
      simp only [axisExtent, axisPrio] <;>
      first
        | linarith
        | (intro h; decide)
        | (intro h; exfalso; linarith)
  · exfalso
    linarith
  · have hc : classifyAxes ex ey ez = (Axis.z, Axis.y, Axis.x) := by
      simp only [classifyAxes, List.insertionSort, List.orderedInsert,
        if_neg (not_le.mpr h1), if_neg (not_le.mpr h3), if_neg (not_le.mpr h2)]
    rw [hc]
    refine ⟨by decide, by decide, by decide, ?_, ?_, ?_, ?_, ?_⟩ <;>
      simp only [axisExtent, axisPrio] <;>
      first
        | linarith
        | (intro h; decide)
        | (intro h; exfalso; linarith)

/-- Witness for C5 at the concrete extents `(2, 2, 1)`: the `x`/`y` tie
goes to `x` as `lengthAxis`, and `z` (smallest) is `flatAxis`. -/
theorem C5_witness :
    (classifyAxes 2 2 1).1 ≠ (classifyAxes 2 2 1).2.1 ∧
    (classifyAxes 2 2 1).1 ≠ (classifyAxes 2 2 1).2.2 ∧
    (classifyAxes 2 2 1).2.1 ≠ (classifyAxes 2 2 1).2.2 ∧
    axisExtent 2 2 1 (classifyAxes 2 2 1).2.1 ≤
      axisExtent 2 2 1 (classifyAxes 2 2 1).1 ∧
    axisExtent 2 2 1 (classifyAxes 2 2 1).2.2 ≤
      axisExtent 2 2 1 (classifyAxes 2 2 1).2.1 ∧
    (axisExtent 2 2 1 (classifyAxes 2 2 1).1 =
       axisExtent 2 2 1 (classifyAxes 2 2 1).2.1 →
      axisPrio (classifyAxes 2 2 1).1 < axisPrio (classifyAxes 2 2 1).2.1) ∧
    (axisExtent 2 2 1 (classifyAxes 2 2 1).2.1 =
       axisExtent 2 2 1 (classifyAxes 2 2 1).2.2 →
      axisPrio (classifyAxes 2 2 1).2.1 < axisPrio (classifyAxes 2 2 1).2.2) ∧
    (axisExtent 2 2 1 (classifyAxes 2 2 1).1 =
       axisExtent 2 2 1 (classifyAxes 2 2 1).2.2 →
      axisPrio (classifyAxes 2 2 1).1 < axisPrio (classifyAxes 2 2 1).2.2) :=
  C5_axis_classification 2 2 1

end BananaStart
